import Mathlib

/-!
Verification of the UrbanAid marker-lifecycle subsystem.

This file gives a shallow embedding, in Lean 4, of the marker pipeline of
`mobile-app/src/screens/MapScreen.tsx` (filter/search engine, viewport
culling, stable render-set reconciler, launch gate), of the asset-cache
preloader and mount gate of `mobile-app/src/screens/PrivacyPolicyScreen.tsx`,
of the data-fetch error handling of `MapScreen.tsx` and the utility store,
and of `mobile-app/src/utils/markerImages.ts`.

Modelling conventions:
- JavaScript numbers used as coordinates are modelled as `Rat`.
- Entity identifiers (JS `number | string`) are modelled as `Nat`; every
  claim treats them as opaque keys.
- A JS `Set` is modelled as a duplicate-free `List` in insertion order;
  only membership, insertion, deletion and size are used by the source.
- A JS object literal used as a record (`SEARCH_SYNONYMS`,
  `imageByCategory`) is modelled as an association list over its literal
  keys; `obj[k]` is `List.lookup`.
- `String.prototype.toLowerCase` is modelled as a character-wise map of
  `Char.toLower` (the data involved is ASCII).
- `query.split(/\s+/)` is modelled as splitting on whitespace characters.
  The two differ only in producing extra empty-string words, which are
  inert here: an empty word has no entry in the synonym table, and the
  substring test uses the whole query, not the words.
-/

namespace UrbanAid

/-- An entity from the store (`types/utility` shape as used by the screens):
stable identifier, coordinates, a category tag, and optional finer `type`
plus optional free-text fields used by search. -/
structure Utility where
  id : Nat
  latitude : Rat
  longitude : Rat
  category : String
  type : Option String := none
  name : Option String := none
  address : Option String := none
  description : Option String := none
deriving DecidableEq, Repr

/-- `s.toLowerCase()`: character-wise ASCII lowercasing. -/
def lowerStr (s : String) : String :=
  String.mk (s.data.map Char.toLower)

/-- `hasPrefixCh hay needle`: `needle` is a prefix of `hay` (char lists). -/
def hasPrefixCh : List Char → List Char → Bool
  | _, [] => true
  | [], _ :: _ => false
  | a :: as, b :: bs => a == b && hasPrefixCh as bs

/-- `containsSeq needle hay`: `needle` occurs contiguously in `hay`. -/
def containsSeq (needle : List Char) : List Char → Bool
  | [] => hasPrefixCh [] needle
  | c :: t => hasPrefixCh (c :: t) needle || containsSeq needle t

/-- `hay.includes(needle)` for strings (JS `String.prototype.includes`). -/
def containsSubstr (hay needle : String) : Bool :=
  containsSeq needle.data hay.data

/-- Splitting a character list at whitespace, accumulating the current word
in reverse (auxiliary for `splitWhitespace`). -/
def splitWhitespaceAux : List Char → List Char → List String
  | acc, [] => [String.mk acc.reverse]
  | acc, c :: cs =>
    if c.isWhitespace then String.mk acc.reverse :: splitWhitespaceAux [] cs
    else splitWhitespaceAux (c :: acc) cs

/-- `query.split(/\s+/)`: split at whitespace characters. Runs of separators
produce extra empty-string words (unlike the JS regex), which are inert for
the synonym lookup below. -/
def splitWhitespace (s : String) : List String :=
  splitWhitespaceAux [] s.data

/-- `SEARCH_SYNONYMS` from `MapScreen.tsx`: maps common everyday search
terms to matching category/type values. -/
def SEARCH_SYNONYMS : List (String × List String) := [
  ("water",     ["water_fountain", "water", "handwashing"]),
  ("drink",     ["water_fountain", "water"]),
  ("fountain",  ["water_fountain"]),
  ("hydration", ["water_fountain", "water"]),
  ("restroom",  ["restroom"]),
  ("bathroom",  ["restroom"]),
  ("toilet",    ["restroom"]),
  ("wc",        ["restroom"]),
  ("lavatory",  ["restroom"]),
  ("food",      ["free_food", "food"]),
  ("eat",       ["free_food", "food"]),
  ("meal",      ["free_food", "food"]),
  ("hungry",    ["free_food", "food"]),
  ("grocery",   ["free_food", "food"]),
  ("snap",      ["usda_snap_office", "free_food", "food"]),
  ("wic",       ["usda_wic_office"]),
  ("shelter",   ["shelter", "hurricane_shelter", "warming_center", "cooling_center"]),
  ("housing",   ["shelter"]),
  ("sleep",     ["shelter"]),
  ("bed",       ["shelter"]),
  ("homeless",  ["shelter", "homeless_health_center"]),
  ("warm",      ["warming_center"]),
  ("cool",      ["cooling_center"]),
  ("health",    ["health_center", "community_health_center", "migrant_health_center",
                 "homeless_health_center", "public_housing_health_center",
                 "school_based_health_center", "federally_qualified_health_center",
                 "clinic", "medical"]),
  ("doctor",    ["health_center", "community_health_center", "clinic", "medical"]),
  ("clinic",    ["clinic", "medical", "health_center", "community_health_center"]),
  ("medical",   ["medical", "clinic", "health_center", "community_health_center", "va_medical_center"]),
  ("hospital",  ["medical", "clinic", "health_center"]),
  ("dental",    ["dental"]),
  ("dentist",   ["dental"]),
  ("teeth",     ["dental"]),
  ("eye",       ["eye_care"]),
  ("vision",    ["eye_care"]),
  ("glasses",   ["eye_care"]),
  ("mental",    ["mental_health", "suicide_prevention"]),
  ("therapy",   ["mental_health"]),
  ("counseling",["mental_health"]),
  ("crisis",    ["suicide_prevention", "mental_health"]),
  ("suicide",   ["suicide_prevention"]),
  ("addiction", ["addiction_services"]),
  ("rehab",     ["addiction_services"]),
  ("drug",      ["addiction_services", "needle_exchange", "safe_injection"]),
  ("sober",     ["addiction_services"]),
  ("domestic",  ["domestic_violence"]),
  ("abuse",     ["domestic_violence"]),
  ("va",        ["va_facility", "va_medical_center", "va_outpatient_clinic", "va_vet_center",
                 "va_regional_office", "va_cemetery"]),
  ("veteran",   ["va_facility", "va_medical_center", "va_outpatient_clinic", "va_vet_center",
                 "va_regional_office"]),
  ("vet",       ["va_facility", "va_medical_center", "va_outpatient_clinic", "va_vet_center"]),
  ("military",  ["va_facility", "va_medical_center"]),
  ("wifi",      ["wifi", "internet"]),
  ("internet",  ["wifi", "internet"]),
  ("online",    ["wifi", "internet"]),
  ("transit",   ["transit"]),
  ("bus",       ["transit"]),
  ("train",     ["transit"]),
  ("ride",      ["transit"]),
  ("transport", ["transit"]),
  ("shower",    ["shower"]),
  ("laundry",   ["laundry"]),
  ("wash",      ["laundry", "handwashing", "shower"]),
  ("clean",     ["laundry", "shower", "handwashing"]),
  ("haircut",   ["haircut"]),
  ("barber",    ["haircut"]),
  ("charging",  ["charging"]),
  ("charge",    ["charging"]),
  ("power",     ["charging"]),
  ("phone",     ["charging"]),
  ("battery",   ["charging"]),
  ("library",   ["library"]),
  ("book",      ["library"]),
  ("books",     ["library"]),
  ("legal",     ["legal"]),
  ("lawyer",    ["legal"]),
  ("law",       ["legal"]),
  ("job",       ["job_training"]),
  ("work",      ["job_training"]),
  ("employment",["job_training"]),
  ("training",  ["job_training"]),
  ("tax",       ["tax_help"]),
  ("taxes",     ["tax_help"]),
  ("irs",       ["tax_help"]),
  ("social",    ["social_services"]),
  ("baby",      ["baby_needs"]),
  ("infant",    ["baby_needs"]),
  ("diaper",    ["baby_needs"]),
  ("pet",       ["pet_services"]),
  ("dog",       ["pet_services"]),
  ("cat",       ["pet_services"]),
  ("animal",    ["pet_services"]),
  ("needle",    ["needle_exchange"]),
  ("syringe",   ["needle_exchange", "safe_injection"]),
  ("clothing",  ["clothing"]),
  ("clothes",   ["clothing"]),
  ("jacket",    ["clothing"]),
  ("coat",      ["clothing"]),
  ("bench",     ["bench"]),
  ("sit",       ["bench"]),
  ("seat",      ["bench"]),
  ("emergency", ["disaster_relief", "hurricane_shelter", "warming_center", "cooling_center"]),
  ("disaster",  ["disaster_relief"]),
  ("usda",      ["usda_facility", "usda_rural_development_office", "usda_snap_office",
                 "usda_farm_service_center", "usda_extension_office", "usda_wic_office"]),
  ("farm",      ["usda_farm_service_center"])]

/-- `UTILITY_FILTERS`' category sets, i.e. `FILTER_CATEGORY_MAP` from
`MapScreen.tsx` (only the chips that carry a `categories` array). -/
def FILTER_CATEGORY_MAP : List (String × List String) := [
  ("restroom", ["restroom"]),
  ("water",    ["water_fountain", "water", "handwashing"]),
  ("food",     ["free_food", "food"]),
  ("shelter",  ["shelter", "hurricane_shelter", "warming_center", "cooling_center"]),
  ("health",   ["health_center", "community_health_center", "migrant_health_center",
                "homeless_health_center", "public_housing_health_center",
                "school_based_health_center", "federally_qualified_health_center",
                "clinic", "medical"]),
  ("wifi",     ["wifi", "internet"]),
  ("transit",  ["transit"]),
  ("va",       ["va_facility", "va_medical_center", "va_outpatient_clinic", "va_vet_center",
                "va_regional_office", "va_cemetery"]),
  ("usda",     ["usda_facility", "usda_snap_office", "usda_wic_office",
                "usda_farm_service_center", "usda_rural_development_office",
                "usda_extension_office"])]

/-- The set of synonym category/type tokens collected from the query's words
(the `synonymCategories` set of `filteredUtilities` / `handleSearch`).
Duplicates are irrelevant: the source only queries membership and
non-emptiness. -/
def synonymCategories (lowerQuery : String) : List String :=
  let words := splitWhitespace lowerQuery
  words.foldl (fun acc w =>
    match SEARCH_SYNONYMS.lookup w with
    | some ms => acc ++ ms
    | none => acc) []

/-- The per-utility text-match predicate of `filteredUtilities`: synonym hit
on category/type when the synonym set is non-empty, otherwise substring hit
of the lowercased query in any free-text field. -/
def utilityMatchesQuery (syns : List String) (lowerQuery : String) (u : Utility) : Bool :=
  (decide (0 < syns.length) &&
    (syns.contains u.category ||
      (match u.type with
       | some t => syns.contains t
       | none => false)))
  ||
  ([u.name, some u.category, u.type, u.address, u.description].any
    (fun f => match f with
      | some f => containsSubstr (lowerStr f) lowerQuery
      | none => false))

/-- The category-chip predicate of `filteredUtilities`: the utility's
lowercased category or type is in the chip's member-token set. -/
def utilityMatchesChip (matchSet : List String) (u : Utility) : Bool :=
  matchSet.contains (lowerStr u.category) ||
    (match u.type with
     | some t => matchSet.contains (lowerStr t)
     | none => false)

/-- `filteredUtilities` from `MapScreen.tsx`: filter on the committed search
query (synonym expansion plus substring match), then on the active category
chip. -/
def filteredUtilities (utilities : List Utility) (committedSearch : String)
    (deferredFilter : String) : List Utility :=
  let query := lowerStr committedSearch
  let step1 :=
    if query ≠ "" then
      let syns := synonymCategories query
      utilities.filter (utilityMatchesQuery syns query)
    else utilities
  if deferredFilter ≠ "all" then
    match FILTER_CATEGORY_MAP.lookup deferredFilter with
    | some matchSet => step1.filter (utilityMatchesChip matchSet)
    | none => step1
  else step1

/-- `matchingFilterIds` from `MapScreen.tsx`: `none` (JS `null`) when the
chip is `all` and no search is committed — everything matches; otherwise the
identifiers of the filtered utilities. -/
def matchingFilterIds (utilities : List Utility) (committedSearch : String)
    (deferredFilter : String) : Option (List Nat) :=
  if deferredFilter = "all" ∧ committedSearch = "" then none
  else some ((filteredUtilities utilities committedSearch deferredFilter).map (fun u => u.id))

/-- A camera region from the map host (`Region` of `react-native-maps`). -/
structure Region where
  latitude : Rat
  longitude : Rat
  latitudeDelta : Rat
  longitudeDelta : Rat
deriving DecidableEq, Repr

/-- A buffered viewport bounding box (the `viewportBounds` memo value). -/
structure Bounds where
  minLat : Rat
  maxLat : Rat
  minLng : Rat
  maxLng : Rat
deriving DecidableEq, Repr

/-- `VIEWPORT_BUFFER` from `MapScreen.tsx`: 80% screen buffer per edge. -/
def VIEWPORT_BUFFER : Rat := 8 / 10

/-- `viewportBounds` from `MapScreen.tsx`: expand the region's half-extents
by the fixed buffer; `none` while no region has been received. -/
def viewportBounds (mapRegion : Option Region) : Option Bounds :=
  match mapRegion with
  | none => none
  | some r =>
    let latHalf := r.latitudeDelta * (1 / 2 + VIEWPORT_BUFFER)
    let lngHalf := r.longitudeDelta * (1 / 2 + VIEWPORT_BUFFER)
    some { minLat := r.latitude - latHalf
           maxLat := r.latitude + latHalf
           minLng := r.longitude - lngHalf
           maxLng := r.longitude + lngHalf }

/-- The viewport-culling test of `markersToRender`. -/
def inBounds (b : Bounds) (u : Utility) : Bool :=
  decide (b.minLat ≤ u.latitude) && decide (u.latitude ≤ b.maxLat) &&
  decide (b.minLng ≤ u.longitude) && decide (u.longitude ≤ b.maxLng)

/-- Viewport membership against an optional bounds value: culling is skipped
while no region has been received. -/
def inBoundsOpt (b? : Option Bounds) (u : Utility) : Bool :=
  match b? with
  | some b => inBounds b u
  | none => true

/-- `markersToRender` from `MapScreen.tsx`: viewport culling plus the
category/search filter, applied to the progressively mounted slice
(`visibleUtilities = utilities.slice(0, mountedCount)`). -/
def markersToRender (visibleUtilities : List Utility) (b? : Option Bounds)
    (ids? : Option (List Nat)) : List Utility :=
  let m1 := match b? with
    | some b => visibleUtilities.filter (inBounds b)
    | none => visibleUtilities
  match ids? with
  | some ids => m1.filter (fun u => ids.contains u.id)
  | none => m1

-- ── Stable render set (`MapScreen.tsx`) ─────────────────────────────────

/-- `RENDER_BATCH`: steady-state admission batch per reconciliation tick. -/
def RENDER_BATCH : Nat := 300

/-- `INITIAL_RENDER_BATCH`: admission batch used while the initial load has
not yet been marked complete. -/
def INITIAL_RENDER_BATCH : Nat := 4000

/-- `MAX_RENDERED`: hard cap on the size of the render set. -/
def MAX_RENDERED : Nat := 4000

/-- The batch size chosen by a reconciliation pass:
`initialLoadCompleteRef.current ? RENDER_BATCH : INITIAL_RENDER_BATCH`. -/
def batchSize (initialLoadComplete : Bool) : Nat :=
  if initialLoadComplete then RENDER_BATCH else INITIAL_RENDER_BATCH

/-- The prune phase of the reconciliation effect: delete from the render set
every identifier absent from `validIds`. -/
def pruneIds (validIds : List Nat) (s : List Nat) : List Nat :=
  s.filter (fun id => validIds.contains id)

/-- The admission loop shared by the reconciliation effect and the growth
timer: walk `markersToRender` in order, adding identifiers not yet in the
render set, stopping at `MAX_RENDERED` total or `batch` additions. -/
def admitIds (maxRendered batch : Nat) : List Utility → Nat → List Nat → List Nat
  | [], _, s => s
  | m :: ms, added, s =>
    if maxRendered ≤ s.length then s
    else if batch ≤ added then s
    else if s.contains m.id then admitIds maxRendered batch ms added s
    else admitIds maxRendered batch ms (added + 1) (s ++ [m.id])

/-- The reconciliation effect of `MapScreen.tsx` (runs when
`markersToRender` changes): prune stale identifiers, then admit the first
batch of new ones. -/
def reconcileStep (initialLoadComplete : Bool) (markers : List Utility)
    (s : List Nat) : List Nat :=
  let validIds := markers.map (fun m => m.id)
  admitIds MAX_RENDERED (batchSize initialLoadComplete) markers 0 (pruneIds validIds s)

/-- One tick of the growth timer: if the render set has not yet caught up
with `min markers.length MAX_RENDERED`, admit another batch. -/
def growthTick (initialLoadComplete : Bool) (markers : List Utility)
    (s : List Nat) : List Nat :=
  let target := min markers.length MAX_RENDERED
  if target ≤ s.length then s
  else admitIds MAX_RENDERED (batchSize initialLoadComplete) markers 0 s

/-- A reconciliation pass: the effect step followed by `ticks` growth-timer
ticks against the same eligible list. -/
def reconcilePass (initialLoadComplete : Bool) (markers : List Utility)
    (ticks : Nat) (s : List Nat) : List Nat :=
  (growthTick initialLoadComplete markers)^[ticks] (reconcileStep initialLoadComplete markers s)

/-- A settled reconciliation: enough growth ticks that the timer chain has
reached its fixed point (`markers.length` ticks always suffice). -/
def settleRender (initialLoadComplete : Bool) (markers : List Utility)
    (s : List Nat) : List Nat :=
  reconcilePass initialLoadComplete markers markers.length s

/-- `finalMarkers` from `MapScreen.tsx`: the eligible markers restricted to
the current render set. -/
def finalMarkers (markers : List Utility) (renderedIds : List Nat) : List Utility :=
  markers.filter (fun m => renderedIds.contains m.id)

-- ── Launch gate (`MapScreen.tsx`) ───────────────────────────────────────

/-- The pieces of `MapScreen` state the launch gate reads: the store's
loading flag, the `renderComplete` state, and the `initialLoadCompleteRef`
ref. -/
structure GateState where
  isLoading : Bool
  renderComplete : Bool
  initialLoadComplete : Bool
deriving DecidableEq, Repr

/-- Data, asset and render events visible to the gate: the loading flag and
`renderComplete` may be set arbitrarily by fetches and render effects. -/
inductive GateEvent where
  | setIsLoading (b : Bool)
  | setRenderComplete (b : Bool)
deriving DecidableEq, Repr

/-- Apply a state update to the gate-visible state. -/
def applyGateEvent (g : GateState) : GateEvent → GateState
  | .setIsLoading b => { g with isLoading := b }
  | .setRenderComplete b => { g with renderComplete := b }

/-- The completion effect of `MapScreen.tsx`: `if (!isLoading &&
renderComplete) initialLoadCompleteRef.current = true`. The ref is never
assigned `false` anywhere in the component. -/
def runCompletionEffect (g : GateState) : GateState :=
  if !g.isLoading && g.renderComplete then { g with initialLoadComplete := true } else g

/-- One step of the gate's evolution: a state update followed by the effects
that react to it. -/
def gateStep (g : GateState) (e : GateEvent) : GateState :=
  runCompletionEffect (applyGateEvent g e)

/-- `showLoadingOverlay` from `MapScreen.tsx`:
`!initialLoadCompleteRef.current && (isLoading || !renderComplete)`. -/
def showLoadingOverlay (g : GateState) : Bool :=
  !g.initialLoadComplete && (g.isLoading || !g.renderComplete)

-- ── Data fetch (`MapScreen.tsx` / utility store) ────────────────────────

/-- The settled outcome of an awaited API call. -/
inductive FetchOutcome (α : Type) where
  | ok (value : α)
  | err
deriving DecidableEq, Repr

/-- The slice of the utility store touched by the fetch paths. -/
structure StoreState where
  utilities : List Utility
  isLoading : Bool
  error : Option String
deriving DecidableEq, Repr

/-- `setUtilities` of the utility store: replaces the collection and clears
the error flag. -/
def setUtilities (results : List Utility) (s : StoreState) : StoreState :=
  { s with utilities := results, error := none }

/-- `fetchAllUtilities` from `MapScreen.tsx`, as a function of the settled
outcomes of the two API calls it awaits. `Except` tracks whether an
exception escapes the function: the statewide call is tried first; on
rejection, if a location is known, the nearby call is tried with the
rejection of that fallback only logged; `finally` clears the loading
flag. -/
def fetchAllUtilities (getAll getNearby : FetchOutcome (List Utility))
    (hasLocation : Bool) (s0 : StoreState) : Except String StoreState :=
  let s1 : StoreState := { s0 with isLoading := true }
  let s2 : StoreState :=
    match getAll with
    | .ok results => setUtilities results s1
    | .err =>
      if hasLocation then
        match getNearby with
        | .ok results => setUtilities results s1
        | .err => s1
      else s1
  .ok { s2 with isLoading := false }

/-- `fetchNearbyUtilities` of the utility store (`stores/utilityStore.ts`):
on success replaces the collection and clears the error; on rejection keeps
the collection and sets the error flag. -/
def storeFetchNearbyUtilities (call : FetchOutcome (List Utility))
    (s0 : StoreState) : Except String StoreState :=
  match call with
  | .ok utilities => .ok { s0 with utilities := utilities, error := none, isLoading := false }
  | .err => .ok { s0 with error := some "Failed to fetch nearby utilities", isLoading := false }

-- ── Asset cache preloader (`PrivacyPolicyScreen.tsx`) ───────────────────

/-- The settled state of one promise, as reported by `Promise.allSettled`. -/
inductive SettledResult where
  | fulfilled
  | rejected
deriving DecidableEq, Repr

/-- The environment of one run of the preload effect: whether the native
`MarkerIconPreloader` module is present, whether its bulk call throws, and
the predetermined settled outcome of `Image.prefetch` for each URI. -/
structure PreloadEnv where
  moduleAvailable : Bool
  bulkThrows : Bool
  prefetchOutcome : String → SettledResult

/-- `Promise.allSettled(uris.map(uri => Image.prefetch(uri)))`: one request
per URI; the combined promise always fulfils, with the settled outcome of
every request. -/
def promiseAllSettled (uris : List String) (env : PreloadEnv) : List SettledResult :=
  uris.map env.prefetchOutcome

/-- The body of the preload effect of `PrivacyPolicyScreen.tsx`: try the
native bulk path when the module is present (falling back to individual
prefetches when it is not), and catch any exception by issuing the
individual prefetches. The result is the list of settled fallback outcomes
(empty when the bulk path succeeded); `Except` tracks whether an exception
escapes the body. -/
def preloadBody (uris : List String) (env : PreloadEnv) :
    Except Unit (List SettledResult) :=
  let tried : Except Unit (List SettledResult) :=
    if env.moduleAvailable then
      if env.bulkThrows then .error () else .ok []
    else .ok (promiseAllSettled uris env)
  match tried with
  | .ok r => .ok r
  | .error _ => .ok (promiseAllSettled uris env)

/-- The readiness flag produced by the preload effect: `setImagesCached
(true)` runs after the body settles, unless the effect was cancelled; an
escaping exception would skip it. -/
def preloadImagesCached (uris : List String) (env : PreloadEnv)
    (cancelled : Bool) : Bool :=
  match preloadBody uris env with
  | .ok _ => if cancelled then false else true
  | .error _ => false

-- ── Mount gate (`PrivacyPolicyScreen.tsx`) ──────────────────────────────

/-- `filteredUtilities`/`matchingFilterIds`/`finalMarkers` of
`PrivacyPolicyScreen.tsx` compose to this: all utilities when the chip is
`all` with no search, otherwise the filtered collection (no viewport
culling, no render set on this screen). -/
def ppFinalMarkers (utilities : List Utility) (committedSearch deferredFilter : String) :
    List Utility :=
  match matchingFilterIds utilities committedSearch deferredFilter with
  | some ids => utilities.filter (fun u => ids.contains u.id)
  | none => utilities

/-- The screen state feeding the marker mount gate of
`PrivacyPolicyScreen.tsx`. `imagesCached` starts `false`. -/
structure MountGateState where
  imagesCached : Bool
  utilities : List Utility
  committedSearch : String
  deferredFilter : String

/-- Events that can reach the screen after startup. Only the settling of the
preload effect touches `imagesCached`, and it only sets it to `true`. -/
inductive MountGateEvent where
  | preloadSettled
  | storeUtilities (us : List Utility)
  | commitSearch (q : String)
  | setFilter (k : String)

/-- State transition of the screen. -/
def mountGateStep (g : MountGateState) : MountGateEvent → MountGateState
  | .preloadSettled => { g with imagesCached := true }
  | .storeUtilities us => { g with utilities := us }
  | .commitSearch q => { g with committedSearch := q }
  | .setFilter k => { g with deferredFilter := k }

/-- The initial screen state: nothing cached yet. -/
def mountGateInit (utilities : List Utility) : MountGateState :=
  { imagesCached := false, utilities := utilities,
    committedSearch := "", deferredFilter := "all" }

/-- The `MapView` children of `PrivacyPolicyScreen.tsx`:
`{imagesCached && markerElements}` — the marker elements are attached to the
map only when the readiness flag is `true`. -/
def mountedMarkers (g : MountGateState) : List Utility :=
  if g.imagesCached then ppFinalMarkers g.utilities g.committedSearch g.deferredFilter
  else []

-- ── Marker images (`utils/markerImages.ts`) ─────────────────────────────

/-- The distinct image sources of `markerImages.ts`: one per bundled marker
PNG, plus the default marker. -/
inductive MarkerAsset where
  | water_fountain | water | handwashing | restroom | charging_station
  | shelter | warming_center | cooling_center | hurricane_shelter
  | food | free_food | health | health_center | clinic | medical
  | wifi | internet | library | transit | bench | va_facility | usda
  | shower | laundry | legal | social_services | job_training
  | mental_health | clothing | needle_exchange | pet_services | baby_needs
  | dental | eye_care | haircut | tax_help | parking | disaster_relief
  | defaultMarker
deriving DecidableEq, Repr

/-- The `imageByCategory` record of `markerImages.ts`, keyed by its literal
keys. -/
def imageByCategory : List (String × MarkerAsset) := [
  ("water_fountain", .water_fountain),
  ("water", .water),
  ("handwashing", .handwashing),
  ("restroom", .restroom),
  ("charging_station", .charging_station),
  ("shelter", .shelter),
  ("warming_center", .warming_center),
  ("cooling_center", .cooling_center),
  ("hurricane_shelter", .hurricane_shelter),
  ("food", .food),
  ("free_food", .free_food),
  ("health", .health),
  ("health_center", .health_center),
  ("clinic", .clinic),
  ("medical", .medical),
  ("wifi", .wifi),
  ("internet", .internet),
  ("library", .library),
  ("transit", .transit),
  ("bench", .bench),
  ("va_facility", .va_facility),
  ("usda", .usda),
  ("shower", .shower),
  ("laundry", .laundry),
  ("legal", .legal),
  ("social_services", .social_services),
  ("job_training", .job_training),
  ("mental_health", .mental_health),
  ("clothing", .clothing),
  ("needle_exchange", .needle_exchange),
  ("pet_services", .pet_services),
  ("baby_needs", .baby_needs),
  ("dental", .dental),
  ("eye_care", .eye_care),
  ("haircut", .haircut),
  ("tax_help", .tax_help),
  ("parking", .parking),
  ("disaster_relief", .disaster_relief)]

/-- `category.toLowerCase().replace(/[\s-]/g, '_')`. -/
def normalizeCategory (category : String) : String :=
  String.mk ((lowerStr category).data.map
    (fun c => if c.isWhitespace || c == '-' then '_' else c))

/-- `s.startsWith(p)` for strings, computed structurally. -/
def startsWithStr (s p : String) : Bool :=
  hasPrefixCh s.data p.data

/-- The cache-free computation of `getMarkerImage`: exact lookup on the
normalized category, then the prefix/grouping rules, then the default
image. -/
def computeMarkerImage (category : String) : MarkerAsset :=
  let lower := normalizeCategory category
  let exact := imageByCategory.lookup lower
  let grouped : Option MarkerAsset :=
    match exact with
    | some img => some img
    | none =>
      if startsWithStr lower "va_" then imageByCategory.lookup "va_facility"
      else if startsWithStr lower "usda_" then imageByCategory.lookup "usda"
      else if containsSubstr lower "health_center" ||
              startsWithStr lower "community_health" ||
              startsWithStr lower "migrant_health" ||
              startsWithStr lower "homeless_health" ||
              startsWithStr lower "public_housing_health" ||
              startsWithStr lower "school_based_health" ||
              startsWithStr lower "federally_qualified" then
        imageByCategory.lookup "health_center"
      else if lower = "safe_injection" then imageByCategory.lookup "needle_exchange"
      else if lower = "addiction_services" || lower = "suicide_prevention" ||
              lower = "domestic_violence" then imageByCategory.lookup "mental_health"
      else none
  grouped.getD .defaultMarker

/-- One call of `getMarkerImage` against the memoizing `categoryCache`
(keyed by the raw category string): returns the answer and the updated
cache. -/
def getMarkerImage (cache : List (String × MarkerAsset)) (category : String) :
    MarkerAsset × List (String × MarkerAsset) :=
  match cache.lookup category with
  | some cached => (cached, cache)
  | none =>
    let result := computeMarkerImage category
    (result, (category, result) :: cache)

/-- A sequence of `getMarkerImage` calls threaded through the cache,
collecting the returned image sources. -/
def runMarkerImageCalls (cache : List (String × MarkerAsset)) :
    List String → List MarkerAsset
  | [] => []
  | c :: cs =>
    let (img, cache') := getMarkerImage cache c
    img :: runMarkerImageCalls cache' cs

-- ── Lemmas about the admission loop ─────────────────────────────────────

/-- The admission loop only ever appends: the result is the input render set
followed by identifiers drawn from the eligible list that were not yet
present. -/
theorem admitIds_append (maxRendered b : Nat) :
    ∀ (ms : List Utility) (added : Nat) (s : List Nat),
      ∃ t, admitIds maxRendered b ms added s = s ++ t
        ∧ t.length ≤ b - added
        ∧ ∀ a ∈ t, a ∈ ms.map (fun m => m.id) ∧ a ∉ s := by
  intro ms
  induction ms with
  | nil =>
    intro added s
    exact ⟨[], by simp [admitIds]⟩
  | cons m ms ih =>
    intro added s
    by_cases hmax : maxRendered ≤ s.length
    · exact ⟨[], by simp [admitIds, hmax]⟩
    · by_cases hb : b ≤ added
      · exact ⟨[], by simp [admitIds, hmax, hb]⟩
      · by_cases hc : m.id ∈ s
        · obtain ⟨t, ht, hlen, hmem⟩ := ih added s
          refine ⟨t, ?_, hlen, fun a ha => ⟨?_, (hmem a ha).2⟩⟩
          · simpa [admitIds, hmax, hb, hc] using ht
          · simpa using Or.inr (hmem a ha).1
        · obtain ⟨t, ht, hlen, hmem⟩ := ih (added + 1) (s ++ [m.id])
          refine ⟨m.id :: t, ?_, ?_, ?_⟩
          · simpa [admitIds, hmax, hb, hc] using ht
          · simp only [List.length_cons]
            omega
          · intro a ha
            rcases List.mem_cons.mp ha with rfl | ha
            · exact ⟨by simp, hc⟩
            · refine ⟨by simpa using Or.inr (hmem a ha).1, fun hin => (hmem a ha).2 ?_⟩
              simp [hin]

/-- The admission loop never grows the render set beyond `maxRendered`
(beyond what the input already held). -/
theorem admitIds_length_le (maxRendered b : Nat) :
    ∀ (ms : List Utility) (added : Nat) (s : List Nat),
      (admitIds maxRendered b ms added s).length ≤ max s.length maxRendered := by
  intro ms
  induction ms with
  | nil => intro added s; simp [admitIds]
  | cons m ms ih =>
    intro added s
    by_cases hmax : maxRendered ≤ s.length
    · simp [admitIds, hmax]
    · by_cases hb : b ≤ added
      · simp [admitIds, hmax, hb]
      · by_cases hc : m.id ∈ s
        · simpa [admitIds, hmax, hb, hc] using ih added s
        · have h := ih (added + 1) (s ++ [m.id])
          have : max (s ++ [m.id]).length maxRendered ≤ max s.length maxRendered := by
            simp only [List.length_append, List.length_singleton]
            omega
          calc (admitIds maxRendered b (m :: ms) added s).length
              = (admitIds maxRendered b ms (added + 1) (s ++ [m.id])).length := by
                simp [admitIds, hmax, hb, hc]
            _ ≤ max (s ++ [m.id]).length maxRendered := h
            _ ≤ max s.length maxRendered := this

/-- The admission loop preserves freedom from duplicates. -/
theorem admitIds_nodup (maxRendered b : Nat) :
    ∀ (ms : List Utility) (added : Nat) (s : List Nat), s.Nodup →
      (admitIds maxRendered b ms added s).Nodup := by
  intro ms
  induction ms with
  | nil => intro added s hs; simpa [admitIds] using hs
  | cons m ms ih =>
    intro added s hs
    by_cases hmax : maxRendered ≤ s.length
    · simpa [admitIds, hmax] using hs
    · by_cases hb : b ≤ added
      · simpa [admitIds, hmax, hb] using hs
      · by_cases hc : m.id ∈ s
        · simpa [admitIds, hmax, hb, hc] using ih added s hs
        · have hs' : (s ++ [m.id]).Nodup := by
            simp [List.nodup_append, hs, hc]
          simpa [admitIds, hmax, hb, hc] using ih (added + 1) (s ++ [m.id]) hs'

/-- If every eligible identifier is already rendered, the admission loop is
the identity. -/
theorem admitIds_eq_of_mem (maxRendered b : Nat) :
    ∀ (ms : List Utility) (added : Nat) (s : List Nat),
      (∀ a ∈ ms.map (fun m => m.id), a ∈ s) →
      admitIds maxRendered b ms added s = s := by
  intro ms
  induction ms with
  | nil => intro added s _; simp [admitIds]
  | cons m ms ih =>
    intro added s hall
    have hc : m.id ∈ s := hall m.id (by simp)
    by_cases hmax : maxRendered ≤ s.length
    · simp [admitIds, hmax]
    · by_cases hb : b ≤ added
      · simp [admitIds, hmax, hb]
      · have := ih added s (fun a ha => hall a (by simpa using Or.inr ha))
        simpa [admitIds, hmax, hb, hc] using this

/-- When the cap is already reached, the admission loop is the identity. -/
theorem admitIds_eq_of_full (maxRendered b : Nat) (ms : List Utility)
    (added : Nat) (s : List Nat) (h : maxRendered ≤ s.length) :
    admitIds maxRendered b ms added s = s := by
  cases ms with
  | nil => simp [admitIds]
  | cons m ms => simp [admitIds, h]

/-- Conversely, a fixed point of the admission loop below the cap (with a
positive batch) already contains every eligible identifier. -/
theorem admitIds_full_of_eq (maxRendered b : Nat) (hb : 0 < b) :
    ∀ (ms : List Utility) (s : List Nat),
      admitIds maxRendered b ms 0 s = s → s.length < maxRendered →
      ∀ a ∈ ms.map (fun m => m.id), a ∈ s := by
  intro ms
  induction ms with
  | nil => intro s _ _ a ha; simp at ha
  | cons m ms ih =>
    intro s heq hlt a ha
    have hmax : ¬ maxRendered ≤ s.length := by omega
    have hb0 : ¬ b ≤ 0 := by omega
    by_cases hc : m.id ∈ s
    · have heq' : admitIds maxRendered b ms 0 s = s := by
        simpa [admitIds, hmax, hb0, hc] using heq
      rcases List.mem_map.mp ha with ⟨u, hu, rfl⟩
      rcases List.mem_cons.mp hu with rfl | hu
      · exact hc
      · exact ih s heq' hlt u.id (List.mem_map.mpr ⟨u, hu, rfl⟩)
    · exfalso
      have heq' : admitIds maxRendered b ms (0 + 1) (s ++ [m.id]) = s := by
        simpa [admitIds, hmax, hb0, hc] using heq
      obtain ⟨t, ht, -, -⟩ := admitIds_append maxRendered b ms (0 + 1) (s ++ [m.id])
      rw [ht] at heq'
      have := congrArg List.length heq'
      simp at this

-- ── Lemmas about the prune phase ────────────────────────────────────────

/-- Pruning keeps exactly the rendered identifiers still in `validIds`. -/
theorem mem_pruneIds (validIds s : List Nat) (a : Nat) :
    a ∈ pruneIds validIds s ↔ a ∈ s ∧ a ∈ validIds := by
  simp [pruneIds, List.mem_filter, List.elem_iff]

/-- Pruning a render set that is already inside the valid set is the
identity. -/
theorem pruneIds_eq_of_subset (validIds s : List Nat)
    (h : ∀ a ∈ s, a ∈ validIds) : pruneIds validIds s = s := by
  unfold pruneIds
  rw [List.filter_eq_self]
  intro a ha
  simpa [List.elem_iff] using h a ha

/-- Pruning preserves freedom from duplicates. -/
theorem pruneIds_nodup (validIds s : List Nat) (h : s.Nodup) :
    (pruneIds validIds s).Nodup :=
  h.filter _

/-- Pruning never grows the render set. -/
theorem pruneIds_length_le (validIds s : List Nat) :
    (pruneIds validIds s).length ≤ s.length :=
  List.length_filter_le _ _

-- ── Lemmas about reconciliation passes ──────────────────────────────────

/-- A well-formed render state: duplicate-free (it models a JS `Set`). -/
theorem reconcileStep_nodup (ilc : Bool) (m : List Utility) (s : List Nat)
    (hs : s.Nodup) : (reconcileStep ilc m s).Nodup :=
  admitIds_nodup _ _ _ _ _ (pruneIds_nodup _ _ hs)

/-- Everything in the output of the reconciliation effect is an eligible
identifier. -/
theorem reconcileStep_subset (ilc : Bool) (m : List Utility) (s : List Nat) :
    ∀ a ∈ reconcileStep ilc m s, a ∈ m.map (fun u => u.id) := by
  intro a ha
  obtain ⟨t, ht, -, hmem⟩ :=
    admitIds_append MAX_RENDERED (batchSize ilc) m 0 (pruneIds (m.map (fun u => u.id)) s)
  rw [reconcileStep, ht] at ha
  rcases List.mem_append.mp ha with h | h
  · exact ((mem_pruneIds _ _ _).mp h).2
  · exact (hmem a h).1

/-- The growth tick only appends, and appends only eligible identifiers not
yet present. -/
theorem growthTick_append (ilc : Bool) (m : List Utility) (s : List Nat) :
    ∃ t, growthTick ilc m s = s ++ t
      ∧ t.length ≤ batchSize ilc
      ∧ ∀ a ∈ t, a ∈ m.map (fun u => u.id) ∧ a ∉ s := by
  by_cases h : min m.length MAX_RENDERED ≤ s.length
  · exact ⟨[], by simp [growthTick, h]⟩
  · obtain ⟨t, ht, hlen, hmem⟩ := admitIds_append MAX_RENDERED (batchSize ilc) m 0 s
    exact ⟨t, by simpa [growthTick, h] using ht, by simpa using hlen, hmem⟩

/-- Membership in the render set survives a growth tick. -/
theorem mem_growthTick (ilc : Bool) (m : List Utility) (s : List Nat)
    (a : Nat) (ha : a ∈ s) : a ∈ growthTick ilc m s := by
  obtain ⟨t, ht, -, -⟩ := growthTick_append ilc m s
  rw [ht]
  exact List.mem_append.mpr (Or.inl ha)

/-- Membership in the render set survives any number of growth ticks. -/
theorem mem_growthTick_iterate (ilc : Bool) (m : List Utility) :
    ∀ (n : Nat) (s : List Nat) (a : Nat), a ∈ s →
      a ∈ (growthTick ilc m)^[n] s := by
  intro n
  induction n with
  | zero => intro s a ha; simpa using ha
  | succ n ih =>
    intro s a ha
    rw [Function.iterate_succ_apply]
    exact ih _ a (mem_growthTick ilc m s a ha)

/-- An eligible identifier already in the render set survives the
reconciliation effect (prune keeps it, admission can only add). -/
theorem mem_reconcileStep (ilc : Bool) (m : List Utility) (s : List Nat)
    (a : Nat) (ha : a ∈ s) (hv : a ∈ m.map (fun u => u.id)) :
    a ∈ reconcileStep ilc m s := by
  obtain ⟨t, ht, -, -⟩ :=
    admitIds_append MAX_RENDERED (batchSize ilc) m 0 (pruneIds (m.map (fun u => u.id)) s)
  rw [reconcileStep, ht]
  exact List.mem_append.mpr (Or.inl ((mem_pruneIds _ _ _).mpr ⟨ha, hv⟩))

/-- An eligible identifier already in the render set survives a whole
reconciliation pass. -/
theorem mem_reconcilePass (ilc : Bool) (m : List Utility) (ticks : Nat)
    (s : List Nat) (a : Nat) (ha : a ∈ s) (hv : a ∈ m.map (fun u => u.id)) :
    a ∈ reconcilePass ilc m ticks s :=
  mem_growthTick_iterate ilc m ticks _ a (mem_reconcileStep ilc m s a ha hv)

/-- Everything in the output of a reconciliation pass is an eligible
identifier. -/
theorem reconcilePass_subset (ilc : Bool) (m : List Utility) (ticks : Nat)
    (s : List Nat) : ∀ a ∈ reconcilePass ilc m ticks s, a ∈ m.map (fun u => u.id) := by
  unfold reconcilePass
  induction ticks with
  | zero => simpa using reconcileStep_subset ilc m s
  | succ n ih =>
    rw [Function.iterate_succ_apply']
    intro a ha
    obtain ⟨t, ht, -, hmem⟩ := growthTick_append ilc m ((growthTick ilc m)^[n] (reconcileStep ilc m s))
    rw [ht] at ha
    rcases List.mem_append.mp ha with h | h
    · exact ih a h
    · exact (hmem a h).1

/-- A reconciliation pass keeps the render set within `MAX_RENDERED`,
provided the incoming set respected the cap. -/
theorem reconcilePass_length_le (ilc : Bool) (m : List Utility) (ticks : Nat)
    (s : List Nat) (hs : s.length ≤ MAX_RENDERED) :
    (reconcilePass ilc m ticks s).length ≤ MAX_RENDERED := by
  unfold reconcilePass
  have hstep : (reconcileStep ilc m s).length ≤ MAX_RENDERED := by
    have h1 := admitIds_length_le MAX_RENDERED (batchSize ilc) m 0
      (pruneIds (m.map (fun u => u.id)) s)
    have h2 := pruneIds_length_le (m.map (fun u => u.id)) s
    rw [reconcileStep]
    omega
  induction ticks with
  | zero => simpa using hstep
  | succ n ih =>
    rw [Function.iterate_succ_apply']
    set y := (growthTick ilc m)^[n] (reconcileStep ilc m s) with hy
    by_cases h : min m.length MAX_RENDERED ≤ y.length
    · simpa [growthTick, h] using ih
    · have h1 := admitIds_length_le MAX_RENDERED (batchSize ilc) m 0 y
      simp only [growthTick, if_neg h]
      omega

/-- A reconciliation pass keeps the render set duplicate-free. -/
theorem reconcilePass_nodup (ilc : Bool) (m : List Utility) (ticks : Nat)
    (s : List Nat) (hs : s.Nodup) : (reconcilePass ilc m ticks s).Nodup := by
  unfold reconcilePass
  induction ticks with
  | zero => simpa using reconcileStep_nodup ilc m s hs
  | succ n ih =>
    rw [Function.iterate_succ_apply']
    set y := (growthTick ilc m)^[n] (reconcileStep ilc m s) with hy
    by_cases h : min m.length MAX_RENDERED ≤ y.length
    · simpa [growthTick, h] using ih
    · simp only [growthTick, if_neg h]
      exact admitIds_nodup _ _ _ _ _ ih

-- ── Fixed-point lemmas for the settled render set ───────────────────────

/-- A non-fixed growth tick strictly grows the render set. -/
theorem growthTick_length_lt (ilc : Bool) (m : List Utility) (s : List Nat)
    (h : growthTick ilc m s ≠ s) :
    s.length + 1 ≤ (growthTick ilc m s).length := by
  obtain ⟨t, ht, -, -⟩ := growthTick_append ilc m s
  rw [ht]
  rw [ht] at h
  cases t with
  | nil => simp at h
  | cons a t => simp

/-- A render set that has caught up with the target is a fixed point of the
growth tick. -/
theorem growthTick_eq_of_target (ilc : Bool) (m : List Utility) (s : List Nat)
    (h : min m.length MAX_RENDERED ≤ s.length) : growthTick ilc m s = s := by
  simp [growthTick, h]

/-- Iterating the growth tick `n` times either grows the render set by at
least `n`, or reaches a fixed point. -/
theorem growthTick_iterate_reaches (ilc : Bool) (m : List Utility) :
    ∀ (n : Nat) (s : List Nat),
      s.length + n ≤ ((growthTick ilc m)^[n] s).length
      ∨ growthTick ilc m ((growthTick ilc m)^[n] s) = (growthTick ilc m)^[n] s := by
  intro n
  induction n with
  | zero => intro s; left; simp
  | succ n ih =>
    intro s
    rcases ih s with h | h
    · rw [Function.iterate_succ_apply']
      set y := (growthTick ilc m)^[n] s with hy
      by_cases hfix : growthTick ilc m y = y
      · right
        rw [hfix]
        exact hfix
      · left
        have := growthTick_length_lt ilc m y hfix
        omega
    · right
      rw [Function.iterate_succ_apply', h, h]

/-- After `m.length` growth ticks, the growth chain has reached its fixed
point. -/
theorem growthTick_iterate_fix (ilc : Bool) (m : List Utility) (s : List Nat) :
    growthTick ilc m ((growthTick ilc m)^[m.length] s)
      = (growthTick ilc m)^[m.length] s := by
  rcases growthTick_iterate_reaches ilc m m.length s with h | h
  · apply growthTick_eq_of_target
    have : min m.length MAX_RENDERED ≤ m.length := Nat.min_le_left _ _
    omega
  · exact h

/-- The settled render set is a fixed point of the growth tick. -/
theorem settleRender_fix (ilc : Bool) (m : List Utility) (s : List Nat) :
    growthTick ilc m (settleRender ilc m s) = settleRender ilc m s :=
  growthTick_iterate_fix ilc m (reconcileStep ilc m s)

/-- A duplicate-free list contained in a duplicate-free list of no greater
length exhausts it. -/
theorem all_mem_of_subset_of_length_le (s v : List Nat) (hs : s.Nodup)
    (hv : v.Nodup) (hsub : ∀ a ∈ s, a ∈ v) (hlen : v.length ≤ s.length) :
    ∀ a ∈ v, a ∈ s := by
  have hsub' : s.toFinset ⊆ v.toFinset := by
    intro a ha
    exact List.mem_toFinset.mpr (hsub a (List.mem_toFinset.mp ha))
  have hcard : v.toFinset.card ≤ s.toFinset.card := by
    rw [List.toFinset_card_of_nodup hs, List.toFinset_card_of_nodup hv]
    exact hlen
  have heq := Finset.eq_of_subset_of_card_le hsub' hcard
  intro a ha
  have : a ∈ v.toFinset := List.mem_toFinset.mpr ha
  rw [← heq] at this
  exact List.mem_toFinset.mp this

/-- The batch size in effect is always positive. -/
theorem batchSize_pos (ilc : Bool) : 0 < batchSize ilc := by
  cases ilc <;> simp [batchSize, RENDER_BATCH, INITIAL_RENDER_BATCH]

/-- A well-formed fixed point of the growth tick is untouched by a whole
settled reconciliation (prune removes nothing, admission adds nothing). -/
theorem settleRender_eq_of_fix (ilc : Bool) (m : List Utility) (s : List Nat)
    (hs : s.Nodup) (hv : (m.map (fun u => u.id)).Nodup)
    (hsub : ∀ a ∈ s, a ∈ m.map (fun u => u.id))
    (hfix : growthTick ilc m s = s) :
    settleRender ilc m s = s := by
  have hprune : pruneIds (m.map (fun u => u.id)) s = s :=
    pruneIds_eq_of_subset _ _ hsub
  have hadmit : admitIds MAX_RENDERED (batchSize ilc) m 0 s = s := by
    by_cases htarget : min m.length MAX_RENDERED ≤ s.length
    · rcases min_le_iff.mp htarget with h | h
      · apply admitIds_eq_of_mem
        apply all_mem_of_subset_of_length_le s _ hs hv hsub
        simpa using h
      · exact admitIds_eq_of_full _ _ _ _ _ h
    · have := hfix
      rw [growthTick, if_neg htarget] at this
      exact this
  have hstep : reconcileStep ilc m s = s := by
    rw [reconcileStep, hprune, hadmit]
  rw [settleRender, reconcilePass, hstep]
  exact Function.iterate_fixed hfix m.length

-- ── Eligible-set characterization ───────────────────────────────────────

/-- Membership in `markersToRender`: mounted, inside the (optional) buffered
viewport, and allowed by the (optional) filter identifier set. -/
theorem mem_markersToRender (vis : List Utility) (b? : Option Bounds)
    (ids? : Option (List Nat)) (u : Utility) :
    u ∈ markersToRender vis b? ids?
      ↔ u ∈ vis ∧ inBoundsOpt b? u = true
          ∧ ∀ ids, ids? = some ids → u.id ∈ ids := by
  unfold markersToRender
  cases b? with
  | none =>
    cases ids? with
    | none => simp [inBoundsOpt]
    | some ids => simp [inBoundsOpt, List.mem_filter, List.elem_iff, and_comm]
  | some b =>
    cases ids? with
    | none => simp [inBoundsOpt, List.mem_filter]
    | some ids =>
      simp only [List.mem_filter, inBoundsOpt, List.elem_iff]
      constructor
      · rintro ⟨⟨h1, h2⟩, h3⟩
        exact ⟨h1, h2, fun ids' hids' => by cases hids'; simpa using h3⟩
      · rintro ⟨h1, h2, h3⟩
        exact ⟨⟨h1, h2⟩, by simpa using h3 ids rfl⟩

/-- The filtered collection is a sub-collection of the store. -/
theorem filteredUtilities_subset (utilities : List Utility)
    (committedSearch deferredFilter : String) :
    ∀ u ∈ filteredUtilities utilities committedSearch deferredFilter, u ∈ utilities := by
  intro u hu
  unfold filteredUtilities at hu
  dsimp only at hu
  split at hu
  · split at hu
    · replace hu := List.mem_of_mem_filter hu
      split at hu
      · exact List.mem_of_mem_filter hu
      · exact hu
    · split at hu
      · exact List.mem_of_mem_filter hu
      · exact hu
  · split at hu
    · exact List.mem_of_mem_filter hu
    · exact hu

/-- With no committed search and the `all` chip, the filter engine passes
the collection through unchanged. -/
theorem filteredUtilities_all (utilities : List Utility) :
    filteredUtilities utilities "" "all" = utilities := by
  simp [filteredUtilities, lowerStr]

/-- Identifiers are injective on a store with duplicate-free identifiers. -/
theorem eq_of_mem_of_id_eq (utilities : List Utility)
    (hn : (utilities.map (fun u => u.id)).Nodup) (u v : Utility)
    (hu : u ∈ utilities) (hv : v ∈ utilities) (h : u.id = v.id) : u = v :=
  List.inj_on_of_nodup_map hn hu hv h

/-- On a store with duplicate-free identifiers, every eligible marker is a
filtered marker inside the viewport. -/
theorem mem_markersToRender_filtered (utilities : List Utility)
    (mountedCount : Nat) (b? : Option Bounds) (committedSearch deferredFilter : String)
    (hn : (utilities.map (fun u => u.id)).Nodup) (u : Utility)
    (hu : u ∈ markersToRender (List.take mountedCount utilities) b?
            (matchingFilterIds utilities committedSearch deferredFilter)) :
    u ∈ filteredUtilities utilities committedSearch deferredFilter
      ∧ inBoundsOpt b? u = true := by
  obtain ⟨hvis, hb, hids⟩ := (mem_markersToRender _ _ _ _).mp hu
  have humem : u ∈ utilities := (List.take_sublist _ _).subset hvis
  refine ⟨?_, hb⟩
  unfold matchingFilterIds at hids
  split at hids
  · rename_i hall
    obtain ⟨h1, h2⟩ := hall
    rw [h2, h1, filteredUtilities_all]
    exact humem
  · have hid : u.id ∈ (filteredUtilities utilities committedSearch deferredFilter).map
        (fun u => u.id) := hids _ rfl
    obtain ⟨v, hv, hvid⟩ := List.mem_map.mp hid
    have hveq : v = u :=
      eq_of_mem_of_id_eq utilities hn v u
        (filteredUtilities_subset _ _ _ v hv) humem hvid
    rwa [hveq] at hv

-- ── Claim C4: filter/search semantics ───────────────────────────────────

/-- The spec's description of the text-match semantics, stated directly
(refinement side of claim C4): an entity is kept exactly when its category
or type lies in the union of the synonym expansions of the query's
whitespace-separated words, or one of its free-text fields (name, category,
type, address, description) contains the lowercased raw query as a
case-insensitive substring. -/
def specTextMatch (committedSearch : String) (u : Utility) : Bool :=
  let lowerQuery := lowerStr committedSearch
  let expansion := synonymCategories lowerQuery
  (expansion.contains u.category ||
    (match u.type with
     | some t => expansion.contains t
     | none => false))
  ||
  ([u.name, some u.category, u.type, u.address, u.description].any
    (fun f => match f with
      | some f => containsSubstr (lowerStr f) lowerQuery
      | none => false))

/-- The code's per-entity predicate agrees with the spec's description: the
`size > 0` guard around the synonym test is redundant because membership in
an empty expansion is false anyway. -/
theorem utilityMatchesQuery_eq_spec (committedSearch : String) (u : Utility) :
    utilityMatchesQuery (synonymCategories (lowerStr committedSearch))
        (lowerStr committedSearch) u
      = specTextMatch committedSearch u := by
  unfold utilityMatchesQuery specTextMatch
  cases h : synonymCategories (lowerStr committedSearch) with
  | nil => cases u.type <;> simp [h]
  | cons a l => cases u.type <;> simp [h]

/-- Lowercasing preserves (non-)emptiness. -/
theorem lowerStr_eq_empty_iff (s : String) : lowerStr s = "" ↔ s = "" := by
  unfold lowerStr
  constructor
  · intro h
    have hd : (s.data.map Char.toLower) = ([] : List Char) := congrArg String.data h
    have : s.data = [] := List.map_eq_nil_iff.mp hd
    have hs : s = String.mk s.data := rfl
    rw [hs, this]
  · intro h
    rw [h]
    rfl

/-- Entity 1 of the spec's two-entity scenario. -/
def scenarioEntity1 : Utility :=
  { id := 1, latitude := 47.6, longitude := -122.3, category := "restroom" }

/-- Entity 2 of the spec's two-entity scenario. -/
def scenarioEntity2 : Utility :=
  { id := 2, latitude := 47.61, longitude := -122.31, category := "water_fountain" }

/-- C4. Filter/search semantics: for every entity collection and non-empty
committed query (no category selected), the filter engine keeps exactly the
entities satisfying the spec's text-match description; and on the spec's
two-entity scenario with query "bathroom", the filtered result is exactly
entity 1. -/
theorem C4_filter_search_semantics (utilities : List Utility)
    (committedSearch : String) (h : committedSearch ≠ "") :
    filteredUtilities utilities committedSearch "all"
        = utilities.filter (specTextMatch committedSearch)
    ∧ filteredUtilities [scenarioEntity1, scenarioEntity2] "bathroom" "all"
        = [scenarioEntity1] := by
  constructor
  · have hq : lowerStr committedSearch ≠ "" :=
      fun hc => h ((lowerStr_eq_empty_iff committedSearch).mp hc)
    unfold filteredUtilities
    dsimp only
    rw [if_neg (by simp), if_pos hq]
    exact List.filter_congr (fun u _ => utilityMatchesQuery_eq_spec committedSearch u)
  · rfl

/-- Witness for C4 at the spec's concrete scenario. -/
theorem C4_witness :
    filteredUtilities [scenarioEntity1, scenarioEntity2] "bathroom" "all"
        = [scenarioEntity1, scenarioEntity2].filter (specTextMatch "bathroom")
    ∧ filteredUtilities [scenarioEntity1, scenarioEntity2] "bathroom" "all"
        = [scenarioEntity1] :=
  C4_filter_search_semantics [scenarioEntity1, scenarioEntity2] "bathroom" (by decide)

-- ── Claim C6: gate single-shot ──────────────────────────────────────────

/-- Once `initialLoadCompleteRef` is set, one gate step keeps it set. -/
theorem gateStep_preserves_complete (g : GateState) (e : GateEvent)
    (h : g.initialLoadComplete = true) :
    (gateStep g e).initialLoadComplete = true := by
  cases e <;> simp [gateStep, applyGateEvent, runCompletionEffect] <;>
    split <;> simp [h]

/-- C6. Gate single-shot: once the launch gate is open (initial load marked
complete), no later sequence of data/asset/render events resets the flag or
makes the loading overlay visible again. -/
theorem C6_gate_single_shot (g : GateState) (events : List GateEvent)
    (h : g.initialLoadComplete = true) :
    (events.foldl gateStep g).initialLoadComplete = true
    ∧ showLoadingOverlay (events.foldl gateStep g) = false := by
  have hmain : (events.foldl gateStep g).initialLoadComplete = true := by
    induction events generalizing g with
    | nil => simpa using h
    | cons e es ih =>
      rw [List.foldl_cons]
      exact ih (gateStep g e) (gateStep_preserves_complete g e h)
  exact ⟨hmain, by simp [showLoadingOverlay, hmain]⟩

/-- Witness for C6: an open gate hit by a refetch (loading goes true) and a
render reset stays open and keeps the overlay hidden. -/
theorem C6_witness :
    (([GateEvent.setIsLoading true, GateEvent.setRenderComplete false].foldl gateStep
        { isLoading := false, renderComplete := true, initialLoadComplete := true }).initialLoadComplete = true)
    ∧ showLoadingOverlay
        ([GateEvent.setIsLoading true, GateEvent.setRenderComplete false].foldl gateStep
          { isLoading := false, renderComplete := true, initialLoadComplete := true }) = false :=
  C6_gate_single_shot
    { isLoading := false, renderComplete := true, initialLoadComplete := true }
    [GateEvent.setIsLoading true, GateEvent.setRenderComplete false] rfl

-- ── Claim C7: data-fetch failure atomicity ──────────────────────────────

/-- Counterexample to C7 as stated: when the statewide call and the nearby
fallback both reject, `fetchAllUtilities` leaves the store's error flag
untouched (`none` stays `none`) — no error flag is surfaced to the UI
layer, although the collection is preserved and no exception escapes. -/
theorem C7_counterexample :
    fetchAllUtilities .err .err true
        { utilities := [], isLoading := false, error := none }
      = .ok { utilities := [], isLoading := false, error := none } := rfl

/-- C7 (amended). Data-fetch failure atomicity: when both calls reject,
`fetchAllUtilities` returns (never throws), leaves the utilities collection
and the error flag exactly as they were, and clears only the loading flag;
the error flag is surfaced only by the store-level `fetchNearbyUtilities`
action, which likewise preserves the collection and never throws. -/
theorem C7_fetch_failure_atomic (hasLocation : Bool) (s0 : StoreState) :
    fetchAllUtilities .err .err hasLocation s0 = .ok { s0 with isLoading := false }
    ∧ storeFetchNearbyUtilities .err s0
        = .ok { s0 with error := some "Failed to fetch nearby utilities",
                        isLoading := false } := by
  cases hasLocation <;> exact ⟨rfl, rfl⟩

-- ── Claim C5: preloader readiness always resolves ───────────────────────

/-- C5. When the bulk preload primitive is unavailable or throws, the
preload effect falls back to one individual prefetch per asset URI (`N`
settled outcomes for `N` URIs), no exception escapes the effect body, the
number `M` of rejections among them is at most `N` but otherwise
unconstrained, and the readiness flag still becomes true once they all
settle. -/
theorem C5_preload_fallback_resolves (uris : List String) (env : PreloadEnv)
    (h : env.moduleAvailable = false ∨ env.bulkThrows = true) :
    preloadBody uris env = .ok (promiseAllSettled uris env)
    ∧ (promiseAllSettled uris env).length = uris.length
    ∧ (promiseAllSettled uris env).count .rejected ≤ uris.length
    ∧ preloadImagesCached uris env false = true := by
  have hbody : preloadBody uris env = .ok (promiseAllSettled uris env) := by
    unfold preloadBody
    rcases h with h | h
    · simp [h]
    · cases hm : env.moduleAvailable <;> simp [h, hm]
  refine ⟨hbody, by simp [promiseAllSettled], ?_, ?_⟩
  · calc (promiseAllSettled uris env).count .rejected
        ≤ (promiseAllSettled uris env).length := List.count_le_length _ _
      _ = uris.length := by simp [promiseAllSettled]
  · unfold preloadImagesCached
    rw [hbody]
    simp

/-- Witness for C5: the native module is present but its bulk call throws;
three prefetches are issued of which one fails, and readiness still
resolves. -/
theorem C5_witness :
    (preloadBody ["a", "b", "c"]
        { moduleAvailable := true, bulkThrows := true,
          prefetchOutcome := fun u => if u = "b" then .rejected else .fulfilled }
      = .ok (promiseAllSettled ["a", "b", "c"]
          { moduleAvailable := true, bulkThrows := true,
            prefetchOutcome := fun u => if u = "b" then .rejected else .fulfilled }))
    ∧ (promiseAllSettled ["a", "b", "c"]
        { moduleAvailable := true, bulkThrows := true,
          prefetchOutcome := fun u => if u = "b" then .rejected else .fulfilled }).length
        = (["a", "b", "c"] : List String).length
    ∧ (promiseAllSettled ["a", "b", "c"]
        { moduleAvailable := true, bulkThrows := true,
          prefetchOutcome := fun u => if u = "b" then .rejected else .fulfilled }).count .rejected
        ≤ (["a", "b", "c"] : List String).length
    ∧ preloadImagesCached ["a", "b", "c"]
        { moduleAvailable := true, bulkThrows := true,
          prefetchOutcome := fun u => if u = "b" then .rejected else .fulfilled } false = true :=
  C5_preload_fallback_resolves ["a", "b", "c"]
    { moduleAvailable := true, bulkThrows := true,
      prefetchOutcome := fun u => if u = "b" then .rejected else .fulfilled }
    (Or.inr rfl)

-- ── Claim C8: mount gating on asset readiness ───────────────────────────

/-- Until the preloader settles, the readiness flag stays false. -/
theorem imagesCached_false_of_not_settled (utilities : List Utility)
    (events : List MountGateEvent)
    (h : MountGateEvent.preloadSettled ∉ events) :
    (events.foldl mountGateStep (mountGateInit utilities)).imagesCached = false := by
  suffices hgen : ∀ (g : MountGateState), g.imagesCached = false →
      (events.foldl mountGateStep g).imagesCached = false from
    hgen (mountGateInit utilities) rfl
  induction events with
  | nil => intro g hg; simpa using hg
  | cons e es ih =>
    intro g hg
    rw [List.foldl_cons]
    have he : e ≠ MountGateEvent.preloadSettled := fun hc => h (by simp [hc])
    have : (mountGateStep g e).imagesCached = false := by
      cases e with
      | preloadSettled => exact absurd rfl he
      | storeUtilities us => simpa [mountGateStep] using hg
      | commitSearch q => simpa [mountGateStep] using hg
      | setFilter k => simpa [mountGateStep] using hg
    exact ih (fun hc => h (List.mem_cons_of_mem _ hc)) (mountGateStep g e) this

/-- C8. Mount gating on asset readiness: in every state reachable from
startup in which the preloader has not yet reported ready, no marker
element is attached to the map — `{imagesCached && markerElements}` renders
nothing while the flag is false. -/
theorem C8_mount_gated_on_readiness (utilities : List Utility)
    (events : List MountGateEvent)
    (h : MountGateEvent.preloadSettled ∉ events) :
    mountedMarkers (events.foldl mountGateStep (mountGateInit utilities)) = [] := by
  have := imagesCached_false_of_not_settled utilities events h
  simp [mountedMarkers, this]

/-- Witness for C8: data arrival, a committed search and a chip change do
not mount markers before the preloader settles. -/
theorem C8_witness :
    mountedMarkers
      ([MountGateEvent.storeUtilities [scenarioEntity1],
        MountGateEvent.commitSearch "bathroom",
        MountGateEvent.setFilter "water"].foldl mountGateStep
        (mountGateInit [])) = [] :=
  C8_mount_gated_on_readiness [] _ (by intro h; simp at h)

-- ── Claim C10: total, cache-consistent asset lookup ─────────────────────

/-- A consistent cache (every entry equals the cache-free computation) makes
every call of `getMarkerImage` return the cache-free answer. -/
theorem runMarkerImageCalls_eq (calls : List String) :
    ∀ (cache : List (String × MarkerAsset)),
      (∀ k v, cache.lookup k = some v → v = computeMarkerImage k) →
      runMarkerImageCalls cache calls = calls.map computeMarkerImage := by
  induction calls with
  | nil => intro cache _; simp [runMarkerImageCalls]
  | cons c cs ih =>
    intro cache hc
    unfold runMarkerImageCalls getMarkerImage
    cases hl : cache.lookup c with
    | some v =>
      simp only [hl]
      rw [hc c v hl, List.map_cons, ih cache hc]
    | none =>
      simp only [hl]
      rw [List.map_cons, ih ((c, computeMarkerImage c) :: cache) ?_]
      intro k v hkv
      by_cases hk : c = k
      · subst hk
        exact (by simpa using hkv : computeMarkerImage c = v).symm
      · have hbe : (k == c) = false := beq_eq_false_iff_ne.mpr (fun hkc => hk hkc.symm)
        have hrest : cache.lookup k = some v := by
          simpa [List.lookup, hbe] using hkv
        exact hc k v hrest

/-- C10. Total, cache-consistent asset lookup: every sequence of
`getMarkerImage` calls, threaded through the memoizing cache from its empty
initial state, returns exactly the cache-free computation for each query —
the cache never changes an answer — and the computation itself sends
mixed-case/spaced/hyphenated `va_*` and `usda_*` variants to their group
images and unknown categories to the default image. -/
theorem C10_marker_image_cache_consistent (calls : List String) :
    runMarkerImageCalls [] calls = calls.map computeMarkerImage
    ∧ computeMarkerImage "VA Medical-Center" = .va_facility
    ∧ computeMarkerImage "USDA Snap Office" = .usda
    ∧ computeMarkerImage "School-Based Health Center" = .health_center
    ∧ computeMarkerImage "water_fountain" = .water_fountain
    ∧ computeMarkerImage "some unknown category" = .defaultMarker := by
  refine ⟨runMarkerImageCalls_eq calls [] (by simp), ?_, ?_, ?_, ?_, ?_⟩ <;> decide

-- ── Claim C3: batch bound ───────────────────────────────────────────────

/-- C3. Batch bound: in one reconciliation pass (prune + first admission)
or one growth-timer tick, the number of identifiers newly added to the
render set is at most the batch size in effect — `INITIAL_RENDER_BATCH`
(4000) before the initial load is marked complete, `RENDER_BATCH` (300)
afterwards — and the first-load batch is strictly larger than the
steady-state one. -/
theorem C3_batch_bound (ilc : Bool) (m : List Utility) (s : List Nat) :
    (∃ t, reconcileStep ilc m s = pruneIds (m.map (fun u => u.id)) s ++ t
        ∧ t.length ≤ batchSize ilc ∧ ∀ a ∈ t, a ∉ s)
    ∧ (∃ t, growthTick ilc m s = s ++ t
        ∧ t.length ≤ batchSize ilc ∧ ∀ a ∈ t, a ∉ s)
    ∧ batchSize false = INITIAL_RENDER_BATCH
    ∧ batchSize true = RENDER_BATCH
    ∧ INITIAL_RENDER_BATCH = 4000
    ∧ RENDER_BATCH = 300
    ∧ RENDER_BATCH < INITIAL_RENDER_BATCH := by
  refine ⟨?_, ?_, rfl, rfl, rfl, rfl, by decide⟩
  · obtain ⟨t, ht, hlen, hmem⟩ :=
      admitIds_append MAX_RENDERED (batchSize ilc) m 0 (pruneIds (m.map (fun u => u.id)) s)
    refine ⟨t, by simpa [reconcileStep] using ht, by simpa using hlen, ?_⟩
    intro a ha
    intro hin
    have hnp : a ∉ pruneIds (m.map (fun u => u.id)) s := (hmem a ha).2
    exact hnp ((mem_pruneIds _ _ _).mpr ⟨hin, (hmem a ha).1⟩)
  · obtain ⟨t, ht, hlen, hmem⟩ := growthTick_append ilc m s
    exact ⟨t, ht, hlen, fun a ha => (hmem a ha).2⟩

-- ── Claim C2: churn-avoidance ───────────────────────────────────────────

/-- C2. Churn-avoidance: an entity that is in the render set, is mounted,
lies within the new buffered viewport and still passes the filter is still
in the render set after any reconciliation pass against the new viewport —
and the prune phase removes only identifiers absent from the new eligible
set. -/
theorem C2_churn_avoidance (utilities : List Utility) (mountedCount : Nat)
    (b2 : Option Region) (committedSearch deferredFilter : String)
    (ilc : Bool) (ticks : Nat) (s : List Nat) (u : Utility)
    (hmounted : u ∈ List.take mountedCount utilities)
    (hviewport : inBoundsOpt (viewportBounds b2) u = true)
    (hfilter : u ∈ filteredUtilities utilities committedSearch deferredFilter)
    (hrendered : u.id ∈ s) :
    u.id ∈ reconcilePass ilc
        (markersToRender (List.take mountedCount utilities) (viewportBounds b2)
          (matchingFilterIds utilities committedSearch deferredFilter))
        ticks s
    ∧ ∀ a ∈ s,
        a ∈ (markersToRender (List.take mountedCount utilities) (viewportBounds b2)
              (matchingFilterIds utilities committedSearch deferredFilter)).map
            (fun v => v.id) →
        a ∈ pruneIds
            ((markersToRender (List.take mountedCount utilities) (viewportBounds b2)
              (matchingFilterIds utilities committedSearch deferredFilter)).map
              (fun v => v.id)) s := by
  set m2 := markersToRender (List.take mountedCount utilities) (viewportBounds b2)
    (matchingFilterIds utilities committedSearch deferredFilter) with hm2
  have hum2 : u ∈ m2 := by
    rw [hm2]
    refine (mem_markersToRender _ _ _ _).mpr ⟨hmounted, hviewport, ?_⟩
    intro ids hids
    unfold matchingFilterIds at hids
    split at hids
    · cases hids
    · cases hids
      exact List.mem_map.mpr ⟨u, hfilter, rfl⟩
  refine ⟨?_, ?_⟩
  · exact mem_reconcilePass ilc m2 ticks s u.id hrendered
      (List.mem_map.mpr ⟨u, hum2, rfl⟩)
  · intro a ha hav
    exact (mem_pruneIds _ _ _).mpr ⟨ha, hav⟩

/-- Witness for C2: a mounted, eligible, rendered entity survives the pass. -/
theorem C2_witness :
    (scenarioEntity2.id ∈ reconcilePass false
        (markersToRender (List.take 1 [scenarioEntity2]) (viewportBounds none)
          (matchingFilterIds [scenarioEntity2] "" "all"))
        0 [2])
    ∧ ∀ a ∈ [2],
        a ∈ (markersToRender (List.take 1 [scenarioEntity2]) (viewportBounds none)
              (matchingFilterIds [scenarioEntity2] "" "all")).map (fun v => v.id) →
        a ∈ pruneIds
            ((markersToRender (List.take 1 [scenarioEntity2]) (viewportBounds none)
              (matchingFilterIds [scenarioEntity2] "" "all")).map (fun v => v.id)) [2] :=
  C2_churn_avoidance [scenarioEntity2] 1 none "" "all" false 0 [2] scenarioEntity2
    (List.mem_singleton.mpr rfl) rfl
    (by rw [filteredUtilities_all]; exact List.mem_singleton.mpr rfl)
    (by decide)

-- ── Claim C1: subset invariant ──────────────────────────────────────────

/-- C1. Subset invariant: after any reconciliation pass (and any number of
growth ticks), every identifier in the render set belongs to an entity that
matches the committed search and category filter and lies inside the
buffered viewport; the render set never exceeds `MAX_RENDERED`; and the
materialized `finalMarkers` all match the filter and the viewport. -/
theorem C1_subset_invariant (utilities : List Utility) (mountedCount : Nat)
    (mapRegion : Option Region) (committedSearch deferredFilter : String)
    (ilc : Bool) (ticks : Nat) (s : List Nat)
    (hn : (utilities.map (fun u => u.id)).Nodup)
    (hs : s.length ≤ MAX_RENDERED) :
    (∀ a ∈ reconcilePass ilc
        (markersToRender (List.take mountedCount utilities) (viewportBounds mapRegion)
          (matchingFilterIds utilities committedSearch deferredFilter))
        ticks s,
      ∃ u, u ∈ filteredUtilities utilities committedSearch deferredFilter
        ∧ inBoundsOpt (viewportBounds mapRegion) u = true ∧ u.id = a)
    ∧ (reconcilePass ilc
        (markersToRender (List.take mountedCount utilities) (viewportBounds mapRegion)
          (matchingFilterIds utilities committedSearch deferredFilter))
        ticks s).length ≤ MAX_RENDERED
    ∧ ∀ u ∈ finalMarkers
        (markersToRender (List.take mountedCount utilities) (viewportBounds mapRegion)
          (matchingFilterIds utilities committedSearch deferredFilter))
        (reconcilePass ilc
          (markersToRender (List.take mountedCount utilities) (viewportBounds mapRegion)
            (matchingFilterIds utilities committedSearch deferredFilter))
          ticks s),
        u ∈ filteredUtilities utilities committedSearch deferredFilter
          ∧ inBoundsOpt (viewportBounds mapRegion) u = true := by
  set m := markersToRender (List.take mountedCount utilities) (viewportBounds mapRegion)
    (matchingFilterIds utilities committedSearch deferredFilter) with hm
  refine ⟨?_, reconcilePass_length_le ilc m ticks s hs, ?_⟩
  · intro a ha
    have hav := reconcilePass_subset ilc m ticks s a ha
    obtain ⟨u, hu, huid⟩ := List.mem_map.mp hav
    obtain ⟨hf, hb⟩ := mem_markersToRender_filtered utilities mountedCount
      (viewportBounds mapRegion) committedSearch deferredFilter hn u (hm ▸ hu)
    exact ⟨u, hf, hb, huid⟩
  · intro u hu
    have hum : u ∈ m := List.mem_of_mem_filter hu
    exact mem_markersToRender_filtered utilities mountedCount
      (viewportBounds mapRegion) committedSearch deferredFilter hn u (hm ▸ hum)

/-- Witness for C1 at a concrete store and empty initial render set. -/
theorem C1_witness :
    (∀ a ∈ reconcilePass false
        (markersToRender (List.take 2 [scenarioEntity1, scenarioEntity2]) (viewportBounds none)
          (matchingFilterIds [scenarioEntity1, scenarioEntity2] "bathroom" "all"))
        1 [],
      ∃ u, u ∈ filteredUtilities [scenarioEntity1, scenarioEntity2] "bathroom" "all"
        ∧ inBoundsOpt (viewportBounds none) u = true ∧ u.id = a)
    ∧ (reconcilePass false
        (markersToRender (List.take 2 [scenarioEntity1, scenarioEntity2]) (viewportBounds none)
          (matchingFilterIds [scenarioEntity1, scenarioEntity2] "bathroom" "all"))
        1 []).length ≤ MAX_RENDERED
    ∧ ∀ u ∈ finalMarkers
        (markersToRender (List.take 2 [scenarioEntity1, scenarioEntity2]) (viewportBounds none)
          (matchingFilterIds [scenarioEntity1, scenarioEntity2] "bathroom" "all"))
        (reconcilePass false
          (markersToRender (List.take 2 [scenarioEntity1, scenarioEntity2]) (viewportBounds none)
            (matchingFilterIds [scenarioEntity1, scenarioEntity2] "bathroom" "all"))
          1 []),
        u ∈ filteredUtilities [scenarioEntity1, scenarioEntity2] "bathroom" "all"
          ∧ inBoundsOpt (viewportBounds none) u = true :=
  C1_subset_invariant [scenarioEntity1, scenarioEntity2] 2 none "bathroom" "all"
    false 1 [] (by decide) (by decide)

-- ── Claim C9: idempotence of commit ─────────────────────────────────────

/-- C9. Idempotence of commit: committing the same search query twice in a
row with no other state change reconciles against the same eligible list,
and a second settled reconciliation leaves the settled render set of the
first one unchanged. -/
theorem C9_commit_idempotent (utilities : List Utility) (mountedCount : Nat)
    (mapRegion : Option Region) (committedSearch deferredFilter : String)
    (ilc : Bool) (s : List Nat)
    (hs : s.Nodup) (hn : (utilities.map (fun u => u.id)).Nodup) :
    settleRender ilc
        (markersToRender (List.take mountedCount utilities) (viewportBounds mapRegion)
          (matchingFilterIds utilities committedSearch deferredFilter))
        (settleRender ilc
          (markersToRender (List.take mountedCount utilities) (viewportBounds mapRegion)
            (matchingFilterIds utilities committedSearch deferredFilter))
          s)
      = settleRender ilc
          (markersToRender (List.take mountedCount utilities) (viewportBounds mapRegion)
            (matchingFilterIds utilities committedSearch deferredFilter))
          s := by
  set m := markersToRender (List.take mountedCount utilities) (viewportBounds mapRegion)
    (matchingFilterIds utilities committedSearch deferredFilter) with hm
  have hv : (m.map (fun u => u.id)).Nodup := by
    have h1 : List.Sublist m (List.take mountedCount utilities) := by
      rw [hm]
      unfold markersToRender
      cases hb : viewportBounds mapRegion with
      | none =>
        cases matchingFilterIds utilities committedSearch deferredFilter with
        | none => simp
        | some ids => exact List.filter_sublist _
      | some b =>
        cases matchingFilterIds utilities committedSearch deferredFilter with
        | none => exact List.filter_sublist _
        | some ids => exact (List.filter_sublist _).trans (List.filter_sublist _)
    have h2 : List.Sublist m utilities := h1.trans (List.take_sublist _ _)
    exact (h2.map (fun u => u.id)).nodup hn
  have hr := settleRender_fix ilc m s
  exact settleRender_eq_of_fix ilc m (settleRender ilc m s)
    (reconcilePass_nodup ilc m m.length s hs) hv
    (reconcilePass_subset ilc m m.length s) hr

/-- Witness for C9 at a concrete store and empty initial render set. -/
theorem C9_witness :
    settleRender true
        (markersToRender (List.take 2 [scenarioEntity1, scenarioEntity2]) (viewportBounds none)
          (matchingFilterIds [scenarioEntity1, scenarioEntity2] "bathroom" "all"))
        (settleRender true
          (markersToRender (List.take 2 [scenarioEntity1, scenarioEntity2]) (viewportBounds none)
            (matchingFilterIds [scenarioEntity1, scenarioEntity2] "bathroom" "all"))
          [])
      = settleRender true
          (markersToRender (List.take 2 [scenarioEntity1, scenarioEntity2]) (viewportBounds none)
            (matchingFilterIds [scenarioEntity1, scenarioEntity2] "bathroom" "all"))
          [] :=
  C9_commit_idempotent [scenarioEntity1, scenarioEntity2] 2 none "bathroom" "all"
    true [] (by decide) (by decide)

end UrbanAid
